import Mathlib

/-!
Shallow embedding of the clock-configuration subsystem of the sam3x8e
hardware-abstraction crate (file `src/pmc.rs`).

The embedding follows the Rust source line by line:
* machine integers (`u16`, `u32`) are `Nat` with an explicit `% 2 ^ w`
  at the operations where overflow or truncation can occur;
* the Rust panics of `freeze` (the `unreachable!()` on an unsupported
  oscillator reading, the `assert!` on the target frequency, and the
  divide-by-zero on a zero target) become `Except` errors, in the order
  in which the source reaches them;
* the hardware is represented by the sequence of register accesses the
  function performs: the `svd2rust` method `Reg::write(f)` first runs
  the closure `f` to build a value and then performs ONE volatile store
  of that value, so busy-wait loops placed inside the closure execute
  before the store — the event trace reproduces exactly that order.
-/

namespace Sam3x8eHal

/-- `const SLOW_CLOCK_FREQ: u32 = 32_768` (pmc.rs line 81). -/
def SLOW_CLOCK_FREQ : Nat := 32768

/-- The `ClockSource` enum (pmc.rs lines 84-90). -/
inductive ClockSource where
  | MainClock
  | SlowClock
  | PllClock
deriving DecidableEq, Repr

/-- The `CFGR` configuration builder (pmc.rs lines 92-99):
an optional target master-clock frequency and a clock source. -/
structure CFGR where
  master_clock : Option Nat
  clock_source : ClockSource
deriving DecidableEq, Repr

/-- `CFGR::new` (pmc.rs lines 102-104). -/
def CFGR.new : CFGR := ⟨none, ClockSource.SlowClock⟩

/-- `CFGR::master_clock` (pmc.rs lines 106-109). -/
def CFGR.set_master_clock (c : CFGR) (freq : Nat) : CFGR :=
  { c with master_clock := some freq }

/-- `CFGR::clock_source` (pmc.rs lines 111-114). -/
def CFGR.set_clock_source (c : CFGR) (src : ClockSource) : CFGR :=
  { c with clock_source := src }

/-- The `Clocks` frozen record (pmc.rs lines 229-236); its accessors
(`clock_source()`, `slck()`, `main_clock_freq()`, `pllack()`,
`master_clock_freq()`, `pres()`) return the stored fields unchanged,
so they are the structure projections. -/
structure Clocks where
  clock_source : ClockSource
  slck : Nat
  main_clock_freq : Nat
  pllack : Nat
  master_clock_freq : Nat
  pres : Nat
deriving DecidableEq, Repr

/-- The panics `freeze` can reach, in error form: the `unreachable!()`
for an oscillator reading outside {4, 8, 12} MHz (line 127), the
divide-by-zero on a zero resolved target (lines 152 / 183), and the
`assert!(mck <= source)` failure (lines 154 / 185). -/
inductive PmcError where
  | unsupportedOscillatorReading
  | divideByZero
  | invalidFrequencyTarget
deriving DecidableEq, Repr

/-- One observable hardware register access performed by `freeze`.
`writeMckr css pres` is the single volatile store performed by
`pmc_mckr.write(..)` with the composed value of both fields;
`waitMckrdy` / `waitLocka` are the busy-wait loops on `pmc_sr`. -/
inductive Event where
  | writePllar (diva mula : Nat)
  | waitLocka
  | waitMckrdy
  | writeMckr (css pres : Nat)
deriving DecidableEq, Repr

/-- Decode of the `CKGR_MOR.MOSCRCF` field read at pmc.rs lines 123-128:
variants 0/1/2 are the supported 4, 8 and 12 MHz readings; any other
raw value falls to the `unreachable!()` arm, i.e. `none` here. -/
def mainClockFreqOf (moscrcf : Nat) : Option Nat :=
  if moscrcf = 0 then some 4000000
  else if moscrcf = 1 then some 8000000
  else if moscrcf = 2 then some 12000000
  else none

/-- The divisor-to-code match of pmc.rs lines 156-166 / 187-197
(the `0 => unreachable!()` arm is never reached: `freeze` only calls
this with `div ≥ 1`). -/
def pres_bits (div : Nat) : Nat :=
  if div = 1 then 0
  else if div = 2 then 1
  else if div = 3 then 7
  else if div = 4 then 2
  else if div ≤ 8 then 3
  else if div ≤ 16 then 4
  else if div ≤ 32 then 5
  else 6

/-- The applied prescaler of pmc.rs lines 175-179 / 206-210:
`2^pres_bits` unless the divisor is 3, in which case 3. -/
def applied_pres (div : Nat) : Nat :=
  if div ≠ 3 then 2 ^ pres_bits div else 3

/-- The PLL multiplier computation of pmc.rs lines 132-134 in `u16`
arithmetic: `2 * (target / main) as u16` (the cast truncates the `u32`
quotient modulo 2^16 and the doubling wraps modulo 2^16), then
`cmp::min(cmp::max(pllmul, 2), 2048)`. -/
def pllmulOf (target main : Nat) : Nat :=
  let raw := 2 * (target / main % 65536) % 65536
  min (max raw 2) 2048

/-- `CFGR::freeze` (pmc.rs lines 117-222). Inputs: the builder and
the raw `MOSCRCF` oscillator reading; outputs: the `Clocks` record or
the panic reached, together with the trace of hardware accesses
performed up to that point. -/
def CFGR.freeze (cfgr : CFGR) (moscrcf : Nat) :
    Except PmcError Clocks × List Event :=
  let mck0 := cfgr.master_clock.getD SLOW_CLOCK_FREQ
  match mainClockFreqOf moscrcf with
  | none => (Except.error PmcError.unsupportedOscillatorReading, [])
  | some main_clock_freq =>
    match cfgr.clock_source with
    | ClockSource.PllClock =>
        let pllmul := pllmulOf (cfgr.master_clock.getD main_clock_freq) main_clock_freq
        let mck := main_clock_freq * pllmul % 2 ^ 32
        (Except.ok
          { clock_source := ClockSource.PllClock
            slck := SLOW_CLOCK_FREQ
            main_clock_freq := main_clock_freq
            pllack := mck / main_clock_freq
            master_clock_freq := mck
            pres := 1 },
         [Event.writePllar 2 (pllmul - 1), Event.waitLocka,
          Event.waitMckrdy, Event.waitMckrdy, Event.writeMckr 2 0])
    | ClockSource.SlowClock =>
        if mck0 = 0 then (Except.error PmcError.divideByZero, [])
        else
          let div := SLOW_CLOCK_FREQ / mck0
          if SLOW_CLOCK_FREQ < mck0 then
            (Except.error PmcError.invalidFrequencyTarget, [])
          else
            let pres := applied_pres div
            (Except.ok
              { clock_source := ClockSource.SlowClock
                slck := SLOW_CLOCK_FREQ
                main_clock_freq := main_clock_freq
                pllack := mck0 / pres / main_clock_freq
                master_clock_freq := mck0 / pres
                pres := pres },
             [Event.waitMckrdy, Event.waitMckrdy,
              Event.writeMckr 0 (pres_bits div)])
    | ClockSource.MainClock =>
        if mck0 = 0 then (Except.error PmcError.divideByZero, [])
        else
          let div := main_clock_freq / mck0
          if main_clock_freq < mck0 then
            (Except.error PmcError.invalidFrequencyTarget, [])
          else
            let pres := applied_pres div
            (Except.ok
              { clock_source := ClockSource.MainClock
                slck := SLOW_CLOCK_FREQ
                main_clock_freq := main_clock_freq
                pllack := mck0 / pres / main_clock_freq
                master_clock_freq := mck0 / pres
                pres := pres },
             [Event.waitMckrdy, Event.waitMckrdy,
              Event.writeMckr 1 (pres_bits div)])

/-- Recognizer for stores to the master-clock register `PMC_MCKR`,
used to count how many such stores a trace contains. -/
def isWriteMckr : Event → Bool
  | Event.writeMckr _ _ => true
  | _ => false

/-- C1: evaluated at the claim's own instance (12 MHz main oscillator,
source Main-Oscillator, target 1,000,000 Hz) the code picks divisor 12 and
applied prescaler 16 as claimed, but the record's master_clock_freq is
target / prescaler = 62,500, not source_freq / prescaler = 750,000: the
record misreports the frequency the written prescaler actually produces. -/
theorem C1_scenarioB_master_is_target_div_pres :
    (CFGR.freeze ⟨some 1000000, ClockSource.MainClock⟩ 2).1 =
      Except.ok ⟨ClockSource.MainClock, 32768, 12000000, 0, 62500, 16⟩ ∧
    12000000 / 16 = 750000 ∧ (62500 : Nat) ≠ 750000 :=
  ⟨rfl, by norm_num, by norm_num⟩

/-- C2: for every divisor d ≥ 1 the prescaler code and the applied
prescaler match the documented table, including the divisor-3 special
case (code 7, prescaler 3), and the applied prescaler is 2^code for
every code other than 7. -/
theorem C2_prescaler_table (d : Nat) (h : 1 ≤ d) :
    (d = 1 → pres_bits d = 0 ∧ applied_pres d = 1) ∧
    (d = 2 → pres_bits d = 1 ∧ applied_pres d = 2) ∧
    (d = 3 → pres_bits d = 7 ∧ applied_pres d = 3) ∧
    (d = 4 → pres_bits d = 2 ∧ applied_pres d = 4) ∧
    (5 ≤ d → d ≤ 8 → pres_bits d = 3 ∧ applied_pres d = 8) ∧
    (9 ≤ d → d ≤ 16 → pres_bits d = 4 ∧ applied_pres d = 16) ∧
    (17 ≤ d → d ≤ 32 → pres_bits d = 5 ∧ applied_pres d = 32) ∧
    (33 ≤ d → pres_bits d = 6 ∧ applied_pres d = 64) ∧
    (pres_bits d ≠ 7 → applied_pres d = 2 ^ pres_bits d) := by
  refine ⟨?_, ?_, ?_, ?_, ?_, ?_, ?_, ?_, ?_⟩
  · rintro rfl; exact ⟨by decide, by decide⟩
  · rintro rfl; exact ⟨by decide, by decide⟩
  · rintro rfl; exact ⟨by decide, by decide⟩
  · rintro rfl; exact ⟨by decide, by decide⟩
  · intro h5 h8; interval_cases d <;> exact ⟨by decide, by decide⟩
  · intro h9 h16; interval_cases d <;> exact ⟨by decide, by decide⟩
  · intro h17 h32; interval_cases d <;> exact ⟨by decide, by decide⟩
  · intro h33
    have hb : pres_bits d = 6 := by unfold pres_bits; split_ifs <;> omega
    refine ⟨hb, ?_⟩
    unfold applied_pres
    split_ifs with h3
    · rw [hb]; norm_num
    · omega
  · intro h7
    unfold applied_pres
    split_ifs with h3
    · rfl
    · exfalso
      have hd : d = 3 := by omega
      subst hd
      exact h7 (by decide)

/-- C2 witness: divisor 12 lies in [9, 16] and yields code 4 and
prescaler 16. -/
theorem C2_prescaler_table_witness :
    (1 ≤ 12) ∧ pres_bits 12 = 4 ∧ applied_pres 12 = 16 :=
  ⟨by norm_num,
   (C2_prescaler_table 12 (by norm_num)).2.2.2.2.2.1 (by norm_num) (by norm_num)⟩

/-- C5: for every target and every main-oscillator value whatsoever —
truncation and wrap of the 16-bit intermediate included, since `pllmulOf`
carries the `% 2^16` reductions of the source — the clamped PLL
multiplier lies in the closed range [2, 2048]. -/
theorem C5_pllmul_always_clamped (target main : Nat) :
    2 ≤ pllmulOf target main ∧ pllmulOf target main ≤ 2048 := by
  unfold pllmulOf
  exact ⟨le_min (le_max_right _ _) (by norm_num), min_le_right _ _⟩

/-- C7: evaluated on each of the three source paths (12 MHz reading,
default target), the trace of `freeze` contains exactly ONE store to the
master-clock register, and on the slow-clock path that trace is literally
two ready-waits followed by the single combined store: the source-select
and prescaler fields are committed by one merged register write, with
both busy-waits executed inside the write closure before the store —
not by two separate writes each followed by a ready-wait. -/
theorem C7_single_merged_mckr_write :
    (CFGR.freeze ⟨none, ClockSource.SlowClock⟩ 2).2 =
      [Event.waitMckrdy, Event.waitMckrdy, Event.writeMckr 0 0] ∧
    ((CFGR.freeze ⟨none, ClockSource.SlowClock⟩ 2).2.filter isWriteMckr).length = 1 ∧
    ((CFGR.freeze ⟨none, ClockSource.MainClock⟩ 2).2.filter isWriteMckr).length = 1 ∧
    ((CFGR.freeze ⟨none, ClockSource.PllClock⟩ 2).2.filter isWriteMckr).length = 1 :=
  ⟨rfl, rfl, rfl, rfl⟩

/-- C3 counterexample: with source Main-Oscillator, a 12 MHz reading and
no requested target, `freeze` does not treat the target as the measured
main-oscillator frequency: the unset target resolves to 32,768 Hz, so the
divisor is 366, the prescaler 64 and the reported master clock 512 —
whereas an explicit 12,000,000 Hz target gives prescaler 1 and master
clock 12,000,000. -/
theorem C3_counterexample_main_default_target :
    (CFGR.freeze ⟨none, ClockSource.MainClock⟩ 2).1 =
      Except.ok ⟨ClockSource.MainClock, 32768, 12000000, 0, 512, 64⟩ ∧
    (CFGR.freeze ⟨some 12000000, ClockSource.MainClock⟩ 2).1 =
      Except.ok ⟨ClockSource.MainClock, 32768, 12000000, 1, 12000000, 1⟩ ∧
    (512 : Nat) ≠ 12000000 :=
  ⟨rfl, rfl, by norm_num⟩

/-- C3 amended: the effective target is the requested target when one was
set; otherwise it is 32,768 Hz on BOTH divisor paths (Slow-Oscillator and
Main-Oscillator sources alike, since line 121 defaults to the slow-clock
constant), and the measured main-oscillator frequency only on the
PLL-of-Main path. -/
theorem C3_default_target_resolution (r m : Nat) (h : mainClockFreqOf r = some m) :
    CFGR.freeze ⟨none, ClockSource.SlowClock⟩ r =
      CFGR.freeze ⟨some SLOW_CLOCK_FREQ, ClockSource.SlowClock⟩ r ∧
    CFGR.freeze ⟨none, ClockSource.MainClock⟩ r =
      CFGR.freeze ⟨some SLOW_CLOCK_FREQ, ClockSource.MainClock⟩ r ∧
    CFGR.freeze ⟨none, ClockSource.PllClock⟩ r =
      CFGR.freeze ⟨some m, ClockSource.PllClock⟩ r := by
  refine ⟨?_, ?_, ?_⟩ <;> simp only [CFGR.freeze, h, Option.getD_some, Option.getD_none]

/-- C3 witness: resolution at the 12 MHz reading. -/
theorem C3_default_target_resolution_witness :
    mainClockFreqOf 2 = some 12000000 ∧
    CFGR.freeze ⟨none, ClockSource.PllClock⟩ 2 =
      CFGR.freeze ⟨some 12000000, ClockSource.PllClock⟩ 2 :=
  ⟨rfl, (C3_default_target_resolution 2 12000000 rfl).2.2⟩

/-- C4 counterexample: with a 12 MHz oscillator and target 4,294,967,295
(the u32 maximum), the computed multiplier is 714 (floor quotient 357;
the round-to-nearest quotient would be 358, multiplier 716), but the
record's master_clock_freq is (12,000,000 * 714) mod 2^32 = 4,273,032,704,
which equals neither 12,000,000 * 714 nor 12,000,000 * 716: the product
wraps modulo 2^32, so `master_clock_freq() == main_osc_freq *
applied_multiplier` fails as stated. -/
theorem C4_counterexample_u32_wrap :
    (CFGR.freeze ⟨some 4294967295, ClockSource.PllClock⟩ 2).1 =
      Except.ok ⟨ClockSource.PllClock, 32768, 12000000, 356, 4273032704, 1⟩ ∧
    min (max (2 * (4294967295 / 12000000)) 2) 2048 = 714 ∧
    (4273032704 : Nat) ≠ 12000000 * 714 ∧
    (4273032704 : Nat) ≠ 12000000 * 716 :=
  ⟨rfl, by norm_num, by norm_num, by norm_num⟩

/-- C4 amended: on the PLL path the multiplier is
clamp(2 * (target / main_osc_freq), 2, 2048) with integer floor division
(for u32 targets and supported oscillator frequencies the u16 cast never
truncates and the doubling never wraps), and the record satisfies
master_clock_freq() = (main_osc_freq * applied_multiplier) mod 2^32; in
particular 12 MHz with the target unset gives multiplier 2 and
master_clock_freq() = 24,000,000. -/
theorem C4_pll_master_freq (t m r : Nat) (ht : t < 4294967296)
    (h : mainClockFreqOf r = some m) :
    pllmulOf t m = min (max (2 * (t / m)) 2) 2048 ∧
    (CFGR.freeze ⟨some t, ClockSource.PllClock⟩ r).1 =
      Except.ok
        { clock_source := ClockSource.PllClock
          slck := SLOW_CLOCK_FREQ
          main_clock_freq := m
          pllack := m * (min (max (2 * (t / m)) 2) 2048) % 2 ^ 32 / m
          master_clock_freq := m * (min (max (2 * (t / m)) 2) 2048) % 2 ^ 32
          pres := 1 } ∧
    (CFGR.freeze ⟨none, ClockSource.PllClock⟩ 2).1 =
      Except.ok ⟨ClockSource.PllClock, 32768, 12000000, 2, 24000000, 1⟩ := by
  have hm : m = 4000000 ∨ m = 8000000 ∨ m = 12000000 := by
    unfold mainClockFreqOf at h
    split_ifs at h <;> simp at h <;> omega
  have h4 : 4000000 ≤ m := by rcases hm with rfl | rfl | rfl <;> norm_num
  have hq : t / m ≤ 1073 :=
    calc t / m ≤ t / 4000000 := Nat.div_le_div_left h4 (by norm_num)
    _ ≤ 4294967295 / 4000000 := Nat.div_le_div_right (by omega)
    _ ≤ 1073 := by norm_num
  have key : pllmulOf t m = min (max (2 * (t / m)) 2) 2048 := by
    unfold pllmulOf
    rw [Nat.mod_eq_of_lt (show t / m < 65536 by omega),
      Nat.mod_eq_of_lt (show 2 * (t / m) < 65536 by omega)]
  refine ⟨key, ?_, rfl⟩
  simp only [CFGR.freeze, h, Option.getD_some, key]

/-- C4 witness: target 24 MHz on a 12 MHz oscillator. -/
theorem C4_pll_master_freq_witness :
    24000000 < 4294967296 ∧ mainClockFreqOf 2 = some 12000000 ∧
    pllmulOf 24000000 12000000 = min (max (2 * (24000000 / 12000000)) 2) 2048 :=
  ⟨by norm_num, rfl, (C4_pll_master_freq 24000000 12000000 2 (by norm_num) rfl).1⟩

/-- C6: whenever `freeze` fails (invalid frequency target, unsupported
oscillator reading, or the zero-target divide-by-zero), its trace of
hardware accesses is empty — the failure is detected before any register
write — and at the claim's instance (12 MHz oscillator, Main-Oscillator
source, target 13 MHz) the failure is InvalidFrequencyTarget with an
empty trace. -/
theorem C6_errors_detected_before_writes :
    (∀ (cfgr : CFGR) (r : Nat) (e : PmcError),
        (CFGR.freeze cfgr r).1 = Except.error e → (CFGR.freeze cfgr r).2 = []) ∧
    CFGR.freeze ⟨some 13000000, ClockSource.MainClock⟩ 2 =
      (Except.error PmcError.invalidFrequencyTarget, []) := by
  refine ⟨?_, rfl⟩
  rintro ⟨mc, src⟩ r e
  rcases hmm : mainClockFreqOf r with _ | m <;>
    cases src <;>
      simp only [CFGR.freeze, hmm] <;>
        first
          | exact fun _ => rfl
          | simp
          | (split_ifs <;> simp)

/-- C6 witness: the rejection at the claim's instance performs no
register write. -/
theorem C6_errors_detected_before_writes_witness :
    (CFGR.freeze ⟨some 13000000, ClockSource.MainClock⟩ 2).1 =
      Except.error PmcError.invalidFrequencyTarget ∧
    (CFGR.freeze ⟨some 13000000, ClockSource.MainClock⟩ 2).2 = [] :=
  ⟨rfl, C6_errors_detected_before_writes.1 ⟨some 13000000, ClockSource.MainClock⟩ 2
    PmcError.invalidFrequencyTarget rfl⟩

/-- C8 counterexample: on the PLL path (12 MHz oscillator, target unset)
the applied multiplier is 2, but the record's pres field is 1 — the
initial value of the `pres` local, never overwritten on the PLL branch —
so pres() does NOT hold the applied multiplier. -/
theorem C8_counterexample_pll_pres :
    pllmulOf 12000000 12000000 = 2 ∧
    (CFGR.freeze ⟨none, ClockSource.PllClock⟩ 2).1 =
      Except.ok ⟨ClockSource.PllClock, 32768, 12000000, 2, 24000000, 1⟩ ∧
    (1 : Nat) ≠ 2 :=
  ⟨by norm_num [pllmulOf], rfl, by norm_num⟩

/-- C8 amended: every successful freeze returns a record with
clock_source() the chosen source, slck() the constant 32,768 Hz,
main_clock_freq() the measured oscillator frequency, pllack() the integer
ratio master/main, pres() the applied prescaler on the divisor paths and
master_clock_freq() the resolved target divided by that prescaler — but
on the PLL path pres() keeps its initial value 1 (matching the CLK_1
prescaler field actually written), NOT the applied multiplier. -/
theorem C8_record_population (cfgr : CFGR) (r : Nat) (c : Clocks)
    (evs : List Event) (h : CFGR.freeze cfgr r = (Except.ok c, evs)) :
    c.clock_source = cfgr.clock_source ∧
    c.slck = SLOW_CLOCK_FREQ ∧
    mainClockFreqOf r = some c.main_clock_freq ∧
    c.pllack = c.master_clock_freq / c.main_clock_freq ∧
    (cfgr.clock_source = ClockSource.PllClock → c.pres = 1) ∧
    (cfgr.clock_source = ClockSource.SlowClock →
      c.pres = applied_pres (SLOW_CLOCK_FREQ / cfgr.master_clock.getD SLOW_CLOCK_FREQ) ∧
      c.master_clock_freq = cfgr.master_clock.getD SLOW_CLOCK_FREQ / c.pres) ∧
    (cfgr.clock_source = ClockSource.MainClock →
      c.pres = applied_pres (c.main_clock_freq / cfgr.master_clock.getD SLOW_CLOCK_FREQ) ∧
      c.master_clock_freq = cfgr.master_clock.getD SLOW_CLOCK_FREQ / c.pres) := by
  rcases cfgr with ⟨mc, src⟩
  rcases hmm : mainClockFreqOf r with _ | m <;>
    cases src <;> simp only [CFGR.freeze, hmm] at h
  · exact absurd h (by simp)
  · exact absurd h (by simp)
  · exact absurd h (by simp)
  · split_ifs at h with h0 hlt
    · exact absurd h (by simp)
    · exact absurd h (by simp)
    · rw [Prod.mk.injEq, Except.ok.injEq] at h
      obtain ⟨rfl, hevs⟩ := h
      exact ⟨rfl, rfl, rfl, rfl, by simp, by simp, fun _ => ⟨rfl, rfl⟩⟩
  · split_ifs at h with h0 hlt
    · exact absurd h (by simp)
    · exact absurd h (by simp)
    · rw [Prod.mk.injEq, Except.ok.injEq] at h
      obtain ⟨rfl, hevs⟩ := h
      exact ⟨rfl, rfl, rfl, rfl, by simp, fun _ => ⟨rfl, rfl⟩, by simp⟩
  · rw [Prod.mk.injEq, Except.ok.injEq] at h
    obtain ⟨rfl, hevs⟩ := h
    exact ⟨rfl, rfl, rfl, rfl, fun _ => rfl, by simp, by simp⟩

/-- C8 witness: the default slow-clock freeze at the 12 MHz reading. -/
theorem C8_record_population_witness :
    CFGR.freeze ⟨none, ClockSource.SlowClock⟩ 2 =
      (Except.ok ⟨ClockSource.SlowClock, 32768, 12000000, 0, 32768, 1⟩,
        [Event.waitMckrdy, Event.waitMckrdy, Event.writeMckr 0 0]) ∧
    (⟨ClockSource.SlowClock, 32768, 12000000, 0, 32768, 1⟩ : Clocks).slck =
      SLOW_CLOCK_FREQ :=
  ⟨rfl, (C8_record_population ⟨none, ClockSource.SlowClock⟩ 2 _ _ rfl).2.1⟩

/-- C10: on the divisor paths a zero resolved target makes `freeze` fail
with the divide-by-zero panic (the division at lines 152/183 runs before
the `assert!` target check), not with InvalidFrequencyTarget; and for any
target ≥ 1 the divide-by-zero failure cannot occur. -/
theorem C10_zero_target_divide_by_zero (src : ClockSource) (r m : Nat)
    (hsrc : src ≠ ClockSource.PllClock) (h : mainClockFreqOf r = some m) :
    CFGR.freeze ⟨some 0, src⟩ r = (Except.error PmcError.divideByZero, []) ∧
    PmcError.divideByZero ≠ PmcError.invalidFrequencyTarget ∧
    (∀ t, 1 ≤ t →
      (CFGR.freeze ⟨some t, src⟩ r).1 ≠ Except.error PmcError.divideByZero) := by
  cases src with
  | PllClock => exact absurd rfl hsrc
  | SlowClock =>
    refine ⟨by simp [CFGR.freeze, h], by simp, ?_⟩
    intro t ht
    simp only [CFGR.freeze, h, Option.getD_some]
    split_ifs <;> simp_all
  | MainClock =>
    refine ⟨by simp [CFGR.freeze, h], by simp, ?_⟩
    intro t ht
    simp only [CFGR.freeze, h, Option.getD_some]
    split_ifs <;> simp_all

/-- C10 witness: a zero target on the Main-Oscillator path at the 12 MHz
reading fails with the divide-by-zero panic before any register write. -/
theorem C10_zero_target_divide_by_zero_witness :
    (ClockSource.MainClock ≠ ClockSource.PllClock) ∧
    mainClockFreqOf 2 = some 12000000 ∧
    CFGR.freeze ⟨some 0, ClockSource.MainClock⟩ 2 =
      (Except.error PmcError.divideByZero, []) :=
  ⟨by simp, rfl,
    (C10_zero_target_divide_by_zero ClockSource.MainClock 2 12000000
      (by simp) rfl).1⟩

end Sam3x8eHal
